import Mathlib

/-!
Verification of the launch-preparation core of `minecraft-launcher-core`
(package `launcher`, file `src/launcher/launcher.go`).

The Go code is shallowly embedded:

* the filesystem is a snapshot: a list of the paths of the files that exist
  (`stat` succeeds exactly on members), plus a map from jar paths to the
  entry names they contain (modelling `zip.OpenReader`);
* `filepath.Join` on clean, slash-free components on a Unix platform is
  string interleaving with `"/"` (`pjoin`); `filepath.FromSlash` is the
  identity on Unix and is therefore dropped;
* `runtime.GOOS` is an explicit `goos : String` parameter threaded through
  every function that consults it;
* the event emitter is pure: the library-resolution loop of
  `buildClasspath` returns the list of events it emits (the only events any
  claim is about); emissions elsewhere are not observable and are dropped;
* Go functions returning `error` become `Except String` with the exact
  message strings of the source.

Go's `strings` helpers are re-implemented structurally on `List Char`
(so that the kernel can evaluate them in witnesses): `strings.ReplaceAll`,
`strings.Fields`, `strings.Split` (single-character separator),
`strings.ToLower`, `strings.Contains`, `strings.HasPrefix`,
`strings.HasSuffix`.
-/

namespace Launcher

/-! ## String helpers (models of Go `strings` functions) -/

/-- Model of `strings.HasPrefix`. -/
def strHasPrefixOf (pat s : String) : Bool :=
  pat.data.isPrefixOf s.data

/-- Model of `strings.HasSuffix`. -/
def strHasSuffixOf (s pat : String) : Bool :=
  pat.data.isSuffixOf s.data

/-- Does `pat` occur as a contiguous sublist of `l`?  Helper for `strContains`. -/
def listContainsSub (pat : List Char) : List Char → Bool
  | [] => pat.isEmpty
  | c :: rest => pat.isPrefixOf (c :: rest) || listContainsSub pat rest

/-- Model of `strings.Contains`. -/
def strContains (s pat : String) : Bool :=
  listContainsSub pat.data s.data

/-- Model of `strings.ToLower` (Go lowercases each rune; `Char.toLower`
agrees on the ASCII names involved here). -/
def lowerStr (s : String) : String :=
  String.mk (s.data.map Char.toLower)

/-- Fuel-indexed worker for `goReplaceAll`; the fuel starts at the length of
the subject, which bounds the number of steps. -/
def replaceListAux (pat rep : List Char) : Nat → List Char → List Char
  | 0, l => l
  | _ + 1, [] => []
  | fuel + 1, c :: rest =>
    if pat.isPrefixOf (c :: rest) then
      rep ++ replaceListAux pat rep fuel (rest.drop (pat.length - 1))
    else
      c :: replaceListAux pat rep fuel rest

/-- Model of `strings.ReplaceAll`: leftmost non-overlapping replacement of
every occurrence of `pat` by `rep`.  (Go's behaviour for an empty `pat` —
interleaving `rep` between runes — is not modelled; no call site uses an
empty pattern.) -/
def goReplaceAll (s pat rep : String) : String :=
  if pat.data.isEmpty then s
  else String.mk (replaceListAux pat.data rep.data s.data.length s.data)

/-- Worker for `goFields`: `cur` is the reversed run of non-space characters
read so far. -/
def goFieldsAux (cur : List Char) : List Char → List String
  | [] => if cur.isEmpty then [] else [String.mk cur.reverse]
  | c :: rest =>
    if c.isWhitespace then
      if cur.isEmpty then goFieldsAux [] rest
      else String.mk cur.reverse :: goFieldsAux [] rest
    else goFieldsAux (c :: cur) rest

/-- Model of `strings.Fields`: split around runs of whitespace, no empty
fields. -/
def goFields (s : String) : List String :=
  goFieldsAux [] s.data

/-- Worker for `splitOnChar`. -/
def splitOnCharAux (sep : Char) (cur : List Char) : List Char → List String
  | [] => [String.mk cur.reverse]
  | c :: rest =>
    if c = sep then String.mk cur.reverse :: splitOnCharAux sep [] rest
    else splitOnCharAux sep (c :: cur) rest

/-- Model of `strings.Split` with a single-character separator (the code
only splits on `":"`). -/
def splitOnChar (sep : Char) (s : String) : List String :=
  splitOnCharAux sep [] s.data

/-! ## Filesystem model -/

/-- A filesystem snapshot for `os.Stat` purposes: the list of paths of files
that exist.  `os.Stat` succeeds exactly on members. -/
abbrev FS := List String

/-- Model of a successful `os.Stat` on a file path. -/
def fileExists (fs : FS) (p : String) : Bool :=
  fs.any (fun q => q == p)

/-- Model of `filepath.Join` for clean, non-empty, slash-free components on
a Unix platform: interleave with `"/"`. -/
def pjoin (ps : List String) : String :=
  String.intercalate "/" ps

/-- Last `/`-separated component of a path; model of `filepath.Base` for the
well-formed relative entry names that occur in archives. -/
def baseName (p : String) : String :=
  (splitOnChar '/' p).getLastD ""

/-- Names of the direct children of `dir` in the snapshot; model of
`os.ReadDir` restricted to regular files (the natives staging directory
holds flat files only). -/
def dirEntries (files : FS) (dir : String) : List String :=
  files.filterMap (fun p =>
    if strHasPrefixOf (dir ++ "/") p then
      let rest : String := String.mk (p.data.drop (dir ++ "/").length)
      if rest.data.contains '/' then none else some rest
    else none)

/-! ## Data model (`VersionJSON`, from the Go struct)

Fields that no modelled function reads (`type`, `minimumLauncherVersion`,
`releaseTime`, `time`, the non-`id` members of `assetIndex`, the
`downloads.classifiers` map, `natives`, the structured `arguments` block,
and the `url`/`sha1`/`size` members of `downloads.artifact`) are elided. -/

/-- One entry of a library's `rules` array: `{action, os.name}`. -/
structure Rule where
  action : String
  osName : String
deriving DecidableEq, Repr

/-- One entry of `libraries`: `name`, `downloads.artifact.path`, `rules`. -/
structure Library where
  name : String
  artifactPath : String
  rules : List Rule
deriving DecidableEq, Repr

/-- The version metadata document (`VersionJSON`). -/
structure VersionJSON where
  mainClass : String
  minecraftArguments : String
  inheritsFrom : String
  assetIndexId : String
  assets : String
  libraries : List Library
deriving DecidableEq, Repr

/-! ## Platform rules (`getOSName`, `shouldIncludeLibrary`) -/

/-- Model of `getOSName`: map `runtime.GOOS` to the Minecraft OS name. -/
def getOSName (goos : String) : String :=
  if goos = "windows" then "windows"
  else if goos = "darwin" then "osx"
  else if goos = "linux" then "linux"
  else goos

/-- The `for _, rule := range rules` loop of `shouldIncludeLibrary`:
`allowed` is the provisional flag; a matching `disallow` returns `false`
immediately. -/
def shouldIncludeLibraryLoop (osName : String) (allowed : Bool) : List Rule → Bool
  | [] => allowed
  | r :: rest =>
    if r.action == "allow" then
      if r.osName == "" || r.osName == osName then
        shouldIncludeLibraryLoop osName true rest
      else
        shouldIncludeLibraryLoop osName allowed rest
    else if r.action == "disallow" then
      if r.osName == "" || r.osName == osName then false
      else shouldIncludeLibraryLoop osName allowed rest
    else
      shouldIncludeLibraryLoop osName allowed rest

/-- Model of `shouldIncludeLibrary`: empty rule list means always included;
otherwise run the loop with the flag initially `false`. -/
def shouldIncludeLibrary (goos : String) (rules : List Rule) : Bool :=
  if rules.length = 0 then true
  else shouldIncludeLibraryLoop (getOSName goos) false rules

/-! ## Classpath resolution (`buildClasspath`) -/

/-- The events the library loop of `buildClasspath` emits. -/
inductive Emit where
  | libraryMissing (name path : String)
  | libraryFoundAlternative (name path : String)
  | libraryNotFound (name : String)
deriving DecidableEq, Repr

/-- The `for _, path := range possiblePaths` loop of `buildClasspath`:
first path whose `os.Stat` succeeds, in list order. -/
def firstExisting (fs : FS) : List String → Option String
  | [] => none
  | p :: rest => if fileExists fs p then some p else firstExisting fs rest

/-- The body of the library loop of `buildClasspath` for one entry:
the classpath contribution (at most one path) and the emitted events.

* `downloads.artifact.path` set: use `<libDir>/<path>` if it exists, else
  emit `library_missing` (no further probing);
* else, a `name` splitting into at least three `:`-parts: probe the four
  candidate locations in order, emit `library_found_alternative` on the
  first hit or `library_not_found` if none exists;
* anything else: no contribution, no event. -/
def resolveLibrary (fs : FS) (libDir versionDir : String) (lib : Library) :
    Option String × List Emit :=
  if lib.artifactPath ≠ "" then
    let libPath := pjoin [libDir, lib.artifactPath]
    if fileExists fs libPath then (some libPath, [])
    else (none, [.libraryMissing lib.name libPath])
  else if lib.name ≠ "" then
    match splitOnChar ':' lib.name with
    | group :: artifact :: ver :: _ =>
      let possiblePaths : List String :=
        [pjoin [versionDir, artifact ++ "-" ++ ver ++ ".jar"],
         pjoin [libDir, group, artifact, ver, artifact ++ "-" ++ ver ++ ".jar"],
         pjoin [libDir, group, artifact, artifact ++ "-" ++ ver ++ ".jar"],
         pjoin [versionDir, lib.name ++ ".jar"]]
      match firstExisting fs possiblePaths with
      | some p => (some p, [.libraryFoundAlternative lib.name p])
      | none => (none, [.libraryNotFound lib.name])
    | _ => (none, [])
  else (none, [])

/-- One step of the `for _, lib := range versionJSON.Libraries` loop:
skip entries whose rules exclude the platform, otherwise append the
resolved path (if any) and the events. -/
def libraryStep (goos : String) (fs : FS) (libDir versionDir : String)
    (acc : List String × List Emit) (lib : Library) : List String × List Emit :=
  if !shouldIncludeLibrary goos lib.rules then acc
  else
    match resolveLibrary fs libDir versionDir lib with
    | (some p, es) => (acc.1 ++ [p], acc.2 ++ es)
    | (none, es) => (acc.1, acc.2 ++ es)

/-- The library loop of `buildClasspath` over a whole library list. -/
def libraryParts (goos : String) (fs : FS) (libDir versionDir : String)
    (libs : List Library) : List String × List Emit :=
  libs.foldl (libraryStep goos fs libDir versionDir) ([], [])

/-- Model of `buildClasspath` up to the final string join: the ordered
classpath entries and the events of the library loop.  After the loop the
version's own jar is appended exactly when it exists. -/
def buildClasspathParts (goos : String) (fs : FS) (gameDir version : String)
    (versionJSON : VersionJSON) : List String × List Emit :=
  let libDir := pjoin [gameDir, "libraries"]
  let versionDir := pjoin [gameDir, "versions", version]
  let r := libraryParts goos fs libDir versionDir versionJSON.libraries
  let versionJar := pjoin [versionDir, version ++ ".jar"]
  if fileExists fs versionJar then (r.1 ++ [versionJar], r.2) else r

/-- The ordered classpath entries of `buildClasspath`. -/
def buildClasspathList (goos : String) (fs : FS) (gameDir version : String)
    (versionJSON : VersionJSON) : List String :=
  (buildClasspathParts goos fs gameDir version versionJSON).1

/-- `os.PathListSeparator` by platform. -/
def pathListSeparator (goos : String) : String :=
  if goos = "windows" then ";" else ":"

/-- Model of `buildClasspath`: the entries joined with the platform's path
list separator. -/
def buildClasspath (goos : String) (fs : FS) (gameDir version : String)
    (versionJSON : VersionJSON) : String :=
  String.intercalate (pathListSeparator goos)
    (buildClasspathList goos fs gameDir version versionJSON)

/-! ## Profile loading and inheritance (`loadVersionJSON`) -/

/-- The merge step of `loadVersionJSON`: empty scalar fields of the child
inherit the parent's value, libraries are parent's followed by child's. -/
def mergeVersion (parent child : VersionJSON) : VersionJSON :=
  { child with
    mainClass := if child.mainClass = "" then parent.mainClass else child.mainClass
    minecraftArguments :=
      if child.minecraftArguments = "" then parent.minecraftArguments
      else child.minecraftArguments
    assetIndexId := if child.assetIndexId = "" then parent.assetIndexId else child.assetIndexId
    assets := if child.assets = "" then parent.assets else child.assets
    libraries := parent.libraries ++ child.libraries }

/-- Model of `loadVersionJSON`.  `docs` abstracts `os.ReadFile` +
`json.Unmarshal`: it maps a file path to the parsed document, `none`
standing for a read or parse failure.  The Go recursion has no cycle
guard and can diverge on cyclic `inheritsFrom` chains; the model adds
explicit fuel, `none` standing for exhaustion (which the Go code reaches
only by not terminating). -/
def loadVersionJSON (docs : String → Option VersionJSON) (gameDir : String) :
    Nat → String → Option VersionJSON
  | 0, _ => none
  | fuel + 1, version =>
    match docs (pjoin [gameDir, "versions", version, version ++ ".json"]) with
    | none => none
    | some versionJSON =>
      if versionJSON.inheritsFrom = "" then some versionJSON
      else
        match loadVersionJSON docs gameDir fuel versionJSON.inheritsFrom with
        | none => none
        | some parentJSON => some (mergeVersion parentJSON versionJSON)

/-! ## Argument substitution (`parseMinecraftArguments`) -/

/-- Model of `parseMinecraftArguments`: replace every `$\x7bkey\x7d`
occurrence for each key of the replacement map, then split on whitespace.
The Go map is iterated in unspecified order; the model fixes the source
text order of the map literal (substitution values never contain
placeholders in the modelled call, so the order is immaterial there). -/
def parseMinecraftArguments (template : String)
    (replacements : List (String × String)) : List String :=
  goFields (replacements.foldl
    (fun t kv => goReplaceAll t ("$\x7b" ++ kv.1 ++ "\x7d") kv.2) template)

/-- The replacement map literal of `PrepareCMD` (source text order). -/
def buildReplacements (username version gameDir assetIndex uuid accessToken : String) :
    List (String × String) :=
  [("auth_player_name", username),
   ("version_name", version),
   ("game_directory", gameDir),
   ("assets_root", pjoin [gameDir, "assets"]),
   ("assets_index_name", assetIndex),
   ("auth_uuid", uuid),
   ("auth_access_token", accessToken),
   ("user_properties", "\x7b\x7d"),
   ("user_type", "legacy")]

/-! ## Native extraction (`extractJar`, `extractNativesFromLibraries`) -/

/-- Filesystem state for the extraction phase: the snapshot of existing
files plus, for each jar path, the entry names inside it (an entry name
ending in `/` is a directory entry). -/
structure FSState where
  files : FS
  jarEntries : String → List String

/-- Is this (already lowercased) name a native binary? -/
def hasNativeSuffixName (name : String) : Bool :=
  strHasSuffixOf name ".dll" || strHasSuffixOf name ".so" ||
  strHasSuffixOf name ".dylib" || strHasSuffixOf name ".jnilib"

/-- Model of `extractJar`: for each entry of the jar, skip directories,
`META-INF/` and non-native suffixes, and create `<destDir>/<base name>`
unless it already exists.  I/O failures on a single entry (which Go skips)
are not modelled; `zip.OpenReader` failure is a jar with no entries. -/
def extractJar (st : FSState) (jarPath destDir : String) : FSState :=
  (st.jarEntries jarPath).foldl
    (fun fs ename =>
      if strHasSuffixOf ename "/" then fs
      else if strHasPrefixOf "META-INF/" ename then fs
      else if hasNativeSuffixName (lowerStr ename) then
        let destPath := pjoin [destDir, baseName ename]
        if fileExists fs.files destPath then fs
        else { fs with files := fs.files ++ [destPath] }
      else fs)
    st

/-- The platform pattern switch of `extractNativesFromLibraries`;
`none` models the `unsupported platform` error. -/
def nativePatternFor (goos : String) : Option String :=
  if goos = "windows" then some "natives-windows"
  else if goos = "darwin" then some "natives-osx"
  else if goos = "linux" then some "natives-linux"
  else none

/-- The jar files `filepath.Walk` visits under `libDir`.  The walk's
lexical visiting order is abstracted to snapshot order; no settled claim
depends on the visiting order. -/
def jarsUnder (files : FS) (libDir : String) : List String :=
  files.filter (fun p => strHasPrefixOf (libDir ++ "/") p && strHasSuffixOf p ".jar")

/-- The `filepath.Walk` phase of `extractNativesFromLibraries`: extract
from every jar whose lowercased base name contains the platform pattern or
`"natives"`. -/
def scanAndExtract (pattern libDir nativesDir : String) (st : FSState) : FSState :=
  (jarsUnder st.files libDir).foldl
    (fun fs p =>
      let lowerName := lowerStr (baseName p)
      if strContains lowerName pattern || strContains lowerName "natives" then
        extractJar fs p nativesDir
      else fs)
    st

/-- The error message of the zero-natives failure (`NoNativesExtracted`). -/
def noNativesMsg : String :=
  "no native libraries were extracted - check if native JARs exist in libraries"

/-- Model of `extractNativesFromLibraries`:
1. if the staging directory already holds a native-suffixed entry, return
   at once with the state unchanged;
2. otherwise resolve the platform pattern (unsupported platform is fatal);
3. walk the dependency tree extracting from matching jars;
4. count native-suffixed entries now in the staging directory; zero is the
   fatal `NoNativesExtracted` condition.
`os.MkdirAll` is a no-op here (directories are implicit in the model). -/
def extractNativesFromLibraries (goos libDir nativesDir : String) (st : FSState) :
    Except String FSState :=
  if (dirEntries st.files nativesDir).any (fun n => hasNativeSuffixName (lowerStr n)) then
    .ok st
  else
    match nativePatternFor goos with
    | none => .error ("unsupported platform: " ++ goos)
    | some pattern =>
      let st2 := scanAndExtract pattern libDir nativesDir st
      let nativeCount :=
        ((dirEntries st2.files nativesDir).filter
          (fun n => hasNativeSuffixName (lowerStr n))).length
      if nativeCount = 0 then .error noNativesMsg else .ok st2

/-! ## Launch preparation (`PrepareCMD`) -/

/-- Model of `filepath.Abs` given the working directory `cwd`
(path cleaning aside). -/
def absPath (cwd p : String) : String :=
  if strHasPrefixOf "/" p then p else pjoin [cwd, p]

/-- Model of `PrepareCMD`: defaults, profile load, main-jar check with the
one-level parent fallback, native extraction, classpath build, and argument
assembly.  Returns the executable path and the ordered argument vector. -/
def prepareCMD (goos cwd : String) (docs : String → Option VersionJSON) (fuel : Nat)
    (username0 accessToken0 uuid0 gameDir version javaPath0 maxRam0 minRam0 : String)
    (extraArgs : List String) (st : FSState) : Except String (String × List String) :=
  let username := if username0 = "" then "Player" else username0
  let javaPath := if javaPath0 = "" then "java" else javaPath0
  let maxRam := if maxRam0 = "" then "2G" else maxRam0
  let minRam := if minRam0 = "" then "512M" else minRam0
  let accessToken := if accessToken0 = "" then "0" else accessToken0
  let uuid := if uuid0 = "" then "00000000-0000-0000-0000-000000000000" else uuid0
  match loadVersionJSON docs gameDir fuel version with
  | none => .error "failed to load version JSON"
  | some versionJSON =>
    let versionDir := pjoin [gameDir, "versions", version]
    let versionJar := pjoin [versionDir, version ++ ".jar"]
    let jarCheck : Except String Unit :=
      if fileExists st.files versionJar then .ok ()
      else if versionJSON.inheritsFrom ≠ "" then
        let parentJar := pjoin [gameDir, "versions", versionJSON.inheritsFrom,
          versionJSON.inheritsFrom ++ ".jar"]
        if fileExists st.files parentJar then .ok ()
        else .error ("version jar not found: " ++ versionJar ++
          " and parent jar not found: " ++ parentJar)
      else .error ("version jar not found: " ++ versionJar)
    match jarCheck with
    | .error e => .error e
    | .ok _ =>
      let nativesDir := pjoin [versionDir, "natives"]
      let libDir := pjoin [gameDir, "libraries"]
      match extractNativesFromLibraries goos libDir nativesDir st with
      | .error e => .error e
      | .ok st2 =>
        let classpath := buildClasspath goos st2.files gameDir version versionJSON
        let absNativesDir := absPath cwd nativesDir
        let assetIndex :=
          if versionJSON.assets ≠ "" then versionJSON.assets else versionJSON.assetIndexId
        let args := ["-Xmx" ++ maxRam, "-Xms" ++ minRam,
          "-Djava.library.path=" ++ absNativesDir, "-cp", classpath]
        let mainClass :=
          if versionJSON.mainClass = "" then "net.minecraft.client.main.Main"
          else versionJSON.mainClass
        let gameArgs :=
          if versionJSON.minecraftArguments ≠ "" then
            parseMinecraftArguments versionJSON.minecraftArguments
              (buildReplacements username version gameDir assetIndex uuid accessToken)
          else
            ["--username", username, "--version", version, "--gameDir", gameDir,
             "--assetsDir", pjoin [gameDir, "assets"], "--assetIndex", assetIndex,
             "--uuid", uuid, "--accessToken", accessToken, "--userType", "legacy"]
        .ok (javaPath, args ++ [mainClass] ++ gameArgs ++ extraArgs)

/-! ## Statement-side helpers

These follow the spec's wording and appear only in theorem statements,
to be compared with the behaviour of the definitions above. -/

/-- Does the rule's platform scope match (unscoped or equal to the current
platform)?  Wording of §4.2. -/
def matchesPlatform (osName : String) (r : Rule) : Bool :=
  r.osName == "" || r.osName == osName

/-- An `allow` rule that matches the current platform (§4.2). -/
def isMatchingAllow (osName : String) (r : Rule) : Bool :=
  r.action == "allow" && matchesPlatform osName r

/-- A `deny` rule (source verb `disallow`) that matches the current
platform (§4.2). -/
def isMatchingDisallow (osName : String) (r : Rule) : Bool :=
  r.action == "disallow" && matchesPlatform osName r

/-- "the first non-empty value walking child→root" (§4.1): the left value
unless it is empty. -/
def specFirstNonEmpty (x y : String) : String :=
  if x = "" then y else x

/-! ## Concrete fixtures for witnesses and counterexamples -/

/-- C1 fixture: root profile `A`. -/
def c1A : VersionJSON := ⟨"MA", "ARGA", "", "aiA", "assA", [⟨"a:liba:1", "", []⟩]⟩

/-- C1 fixture: middle profile `B` (parent `A`, empty main class). -/
def c1B : VersionJSON := ⟨"", "ARGB", "A", "", "", [⟨"b:libb:1", "", []⟩]⟩

/-- C1 fixture: child profile `C` (parent `B`). -/
def c1C : VersionJSON := ⟨"", "", "B", "", "assC", [⟨"c:libc:1", "", []⟩]⟩

/-- C1 fixture: the profile store (path → parsed document). -/
def c1Docs : String → Option VersionJSON := fun p =>
  if p = "g/versions/C/C.json" then some c1C
  else if p = "g/versions/B/B.json" then some c1B
  else if p = "g/versions/A/A.json" then some c1A
  else none

/-- C4 fixture: the child's library. -/
def c4L1 : Library := ⟨"o:l1:1", "l1/l1.jar", []⟩

/-- C4 fixture: the parent's library. -/
def c4L2 : Library := ⟨"o:l2:1", "l2/l2.jar", []⟩

/-- C4 fixture: child profile `X` inheriting from `Y`. -/
def c4X : VersionJSON := ⟨"", "", "Y", "", "", [c4L1]⟩

/-- C4 fixture: parent profile `Y` with main class `M`. -/
def c4Y : VersionJSON := ⟨"M", "", "", "", "", [c4L2]⟩

/-- C4 fixture: the profile store. -/
def c4Docs : String → Option VersionJSON := fun p =>
  if p = "g/versions/X/X.json" then some c4X
  else if p = "g/versions/Y/Y.json" then some c4Y
  else none

/-- C4 counterexample snapshot: both libraries and the parent jar exist,
the child jar `g/versions/X/X.jar` does not; natives already staged. -/
def c4Files : FS :=
  ["g/libraries/l1/l1.jar", "g/libraries/l2/l2.jar",
   "g/versions/Y/Y.jar", "g/versions/X/natives/n.so"]

/-- C4 counterexample state. -/
def c4St : FSState := ⟨c4Files, fun _ => []⟩

/-- C4 witness snapshot: same but the child jar itself exists. -/
def c4wFiles : FS :=
  ["g/libraries/l1/l1.jar", "g/libraries/l2/l2.jar", "g/versions/X/X.jar"]

/-- C6 witness fixture: a root profile. -/
def c6Vj : VersionJSON := ⟨"M", "", "", "ai", "", []⟩

/-- C6 witness fixture: its store. -/
def c6Docs : String → Option VersionJSON := fun p =>
  if p = "g/versions/v/v.json" then some c6Vj else none

/-- C6 witness state: the version jar exists but there is no native jar
anywhere and the staging directory is empty. -/
def c6St : FSState := ⟨["g/versions/v/v.jar"], fun _ => []⟩

/-- C7 witness state: the staging directory `N` already holds a `.so`. -/
def c7St : FSState := ⟨["N/liblwjgl.so"], fun _ => []⟩

/-- C9 witness profile. -/
def c9Vj : VersionJSON := ⟨"M", "", "", "", "", [⟨"o:l:1", "l/l.jar", []⟩]⟩

/-- C10 witness fixture: a root profile with an empty main class. -/
def c10Vj : VersionJSON := ⟨"", "", "", "ai", "", []⟩

/-- C10 witness fixture: its store. -/
def c10Docs : String → Option VersionJSON := fun p =>
  if p = "g/versions/v/v.json" then some c10Vj else none

/-- C10 witness state: version jar present, natives already staged. -/
def c10St : FSState :=
  ⟨["g/versions/v/v.jar", "g/versions/v/natives/lwjgl.so"], fun _ => []⟩

/-! ## Helper lemmas -/

/-- The rule loop computes: `false` if any matching `disallow` occurs
anywhere, else the initial flag or any matching `allow`. -/
theorem shouldIncludeLibraryLoop_eq (osName : String) :
    ∀ (rules : List Rule) (allowed : Bool),
      shouldIncludeLibraryLoop osName allowed rules =
        (!(rules.any (isMatchingDisallow osName)) &&
          (allowed || rules.any (isMatchingAllow osName)))
  | [], allowed => by simp [shouldIncludeLibraryLoop]
  | r :: rest, allowed => by
    have ih := shouldIncludeLibraryLoop_eq osName rest
    simp only [shouldIncludeLibraryLoop, List.any_cons, isMatchingAllow,
      isMatchingDisallow, matchesPlatform]
    cases hx : r.action == "allow" with
    | true =>
      have hx' : r.action = "allow" := by simpa using hx
      have hy : (r.action == "disallow") = false := by simp [hx']
      cases hm : (r.osName == "" || r.osName == osName) with
      | true => simp [hx, hy, hm, ih]
      | false => simp [hx, hy, hm, ih]
    | false =>
      cases hy : r.action == "disallow" with
      | true =>
        cases hm : (r.osName == "" || r.osName == osName) with
        | true => simp [hx, hy, hm]
        | false => simp [hx, hy, hm, ih]
      | false => simp [hx, hy, ih]

/-! ## C2 -/

/-- C2: `shouldIncludeLibrary` returns `true` on an empty rule list;
otherwise it returns `false` exactly when some `disallow` rule whose
platform is unscoped or equal to the current platform occurs anywhere in
the list (regardless of position or surrounding `allow` rules), and
otherwise returns `true` exactly when some matching `allow` rule occurs. -/
theorem c2_platform_rule_evaluation (goos : String) (rules : List Rule) :
    shouldIncludeLibrary goos rules =
      (rules.isEmpty ||
        (!(rules.any (isMatchingDisallow (getOSName goos))) &&
          rules.any (isMatchingAllow (getOSName goos)))) := by
  cases rules with
  | nil => rfl
  | cons r rest =>
    simp [shouldIncludeLibrary, shouldIncludeLibraryLoop_eq]

/-! ## C1 -/

/-- C1: resolving a three-deep inheritance chain A ← B ← C concatenates the
libraries as `A.libraries ++ B.libraries ++ C.libraries` with no
deduplication, and each scalar field (main class, legacy argument template,
assets identifier) is the first non-empty value walking child→root. -/
theorem c1_inheritance_merge
    (docs : String → Option VersionJSON) (gameDir : String) (fuel : Nat)
    (vc vb va : String) (c b a : VersionJSON)
    (hc : docs (pjoin [gameDir, "versions", vc, vc ++ ".json"]) = some c)
    (hcb : c.inheritsFrom = vb) (hb0 : vb ≠ "")
    (hb : docs (pjoin [gameDir, "versions", vb, vb ++ ".json"]) = some b)
    (hba : b.inheritsFrom = va) (ha0 : va ≠ "")
    (ha : docs (pjoin [gameDir, "versions", va, va ++ ".json"]) = some a)
    (haRoot : a.inheritsFrom = "") :
    loadVersionJSON docs gameDir (fuel + 3) vc
        = some (mergeVersion (mergeVersion a b) c) ∧
    (mergeVersion (mergeVersion a b) c).libraries
        = a.libraries ++ b.libraries ++ c.libraries ∧
    (mergeVersion (mergeVersion a b) c).mainClass
        = specFirstNonEmpty c.mainClass (specFirstNonEmpty b.mainClass a.mainClass) ∧
    (mergeVersion (mergeVersion a b) c).minecraftArguments
        = specFirstNonEmpty c.minecraftArguments
            (specFirstNonEmpty b.minecraftArguments a.minecraftArguments) ∧
    (mergeVersion (mergeVersion a b) c).assets
        = specFirstNonEmpty c.assets (specFirstNonEmpty b.assets a.assets) := by
  refine ⟨?_, ?_, rfl, rfl, rfl⟩
  · simp [loadVersionJSON, hc, hcb, hb0, hb, hba, ha0, ha, haRoot]
  · simp [mergeVersion, List.append_assoc]

/-- C1 witness: a concrete three-profile store, resolved with fuel 3. -/
theorem c1_inheritance_merge_witness :
    loadVersionJSON c1Docs "g" 3 "C"
        = some (mergeVersion (mergeVersion c1A c1B) c1C) ∧
    (mergeVersion (mergeVersion c1A c1B) c1C).libraries
        = c1A.libraries ++ c1B.libraries ++ c1C.libraries ∧
    (mergeVersion (mergeVersion c1A c1B) c1C).mainClass
        = specFirstNonEmpty c1C.mainClass
            (specFirstNonEmpty c1B.mainClass c1A.mainClass) ∧
    (mergeVersion (mergeVersion c1A c1B) c1C).minecraftArguments
        = specFirstNonEmpty c1C.minecraftArguments
            (specFirstNonEmpty c1B.minecraftArguments c1A.minecraftArguments) ∧
    (mergeVersion (mergeVersion c1A c1B) c1C).assets
        = specFirstNonEmpty c1C.assets (specFirstNonEmpty c1B.assets c1A.assets) :=
  c1_inheritance_merge c1Docs "g" 0 "C" "B" "A" c1C c1B c1A
    (by decide) (by decide) (by decide) (by decide) (by decide) (by decide)
    (by decide) (by decide)

/-! ## C3 -/

/-- The probe loop takes the first existing path, in list order. -/
theorem firstExisting_eq_find? (fs : FS) :
    ∀ paths : List String,
      firstExisting fs paths = paths.find? (fun p => fileExists fs p)
  | [] => rfl
  | p :: rest => by
    simp only [firstExisting, List.find?]
    cases h : fileExists fs p with
    | true => simp [h]
    | false => simp [h, firstExisting_eq_find? fs rest]

/-- C3 counterexample: a library whose `downloads.artifact.path` is set but
missing on disk is *not* resolved through the coordinate probes even though
probe (a) `<versionDir>/<artifact>-<version>.jar` exists: the code records
it missing and stops, contradicting the claimed strict fall-through
priority over all candidate locations. -/
theorem c3_counterexample :
    (Library.mk "g:a:1" "missing/path.jar" []).artifactPath ≠ "" ∧
    fileExists ["V/a-1.jar"] (pjoin ["L", "missing/path.jar"]) = false ∧
    fileExists ["V/a-1.jar"] (pjoin ["V", "a" ++ "-" ++ "1" ++ ".jar"]) = true ∧
    (resolveLibrary ["V/a-1.jar"] "L" "V" (Library.mk "g:a:1" "missing/path.jar" [])).1
      ≠ some (pjoin ["V", "a" ++ "-" ++ "1" ++ ".jar"]) ∧
    resolveLibrary ["V/a-1.jar"] "L" "V" (Library.mk "g:a:1" "missing/path.jar" [])
      = (none, [.libraryMissing "g:a:1" "L/missing/path.jar"]) := by
  decide

/-- C3 amended: when `downloads.artifact.path` is set, only
`<depRoot>/<path>` is consulted (no fall-through to the coordinate probes
when it is missing); the four coordinate probes, tried in the stated order
with the first existing one taken, apply only when the artifact path is
unset and the coordinate has at least three `:`-separated parts. -/
theorem c3_resolution_order (fs : FS) (libDir versionDir : String) (lib : Library) :
    (lib.artifactPath ≠ "" →
      (resolveLibrary fs libDir versionDir lib).1
        = (if fileExists fs (pjoin [libDir, lib.artifactPath]) then
             some (pjoin [libDir, lib.artifactPath])
           else none)) ∧
    (∀ (group artifact ver : String) (rest : List String),
      lib.artifactPath = "" → lib.name ≠ "" →
      splitOnChar ':' lib.name = group :: artifact :: ver :: rest →
      (resolveLibrary fs libDir versionDir lib).1
        = List.find? (fun p => fileExists fs p)
            [pjoin [versionDir, artifact ++ "-" ++ ver ++ ".jar"],
             pjoin [libDir, group, artifact, ver, artifact ++ "-" ++ ver ++ ".jar"],
             pjoin [libDir, group, artifact, artifact ++ "-" ++ ver ++ ".jar"],
             pjoin [versionDir, lib.name ++ ".jar"]]) := by
  constructor
  · intro h
    simp only [resolveLibrary, if_pos h]
    cases hf : fileExists fs (pjoin [libDir, lib.artifactPath]) <;> simp [hf]
  · intro group artifact ver rest h hn hsplit
    rw [← firstExisting_eq_find?]
    simp only [resolveLibrary, h, hsplit]
    simp only [ne_eq, not_true_eq_false, if_false, if_pos hn]
    cases hfe : firstExisting fs
        [pjoin [versionDir, artifact ++ "-" ++ ver ++ ".jar"],
         pjoin [libDir, group, artifact, ver, artifact ++ "-" ++ ver ++ ".jar"],
         pjoin [libDir, group, artifact, artifact ++ "-" ++ ver ++ ".jar"],
         pjoin [versionDir, lib.name ++ ".jar"]] <;>
      simp [hfe]

/-- C3 witness: with the artifact path unset, the probes fire and find the
canonical Maven location (probe (b)). -/
theorem c3_resolution_order_witness :
    (resolveLibrary ["L/g/a/1/a-1.jar"] "L" "V" (Library.mk "g:a:1" "" [])).1
      = List.find? (fun p => fileExists ["L/g/a/1/a-1.jar"] p)
          [pjoin ["V", "a" ++ "-" ++ "1" ++ ".jar"],
           pjoin ["L", "g", "a", "1", "a" ++ "-" ++ "1" ++ ".jar"],
           pjoin ["L", "g", "a", "a" ++ "-" ++ "1" ++ ".jar"],
           pjoin ["V", "g:a:1" ++ ".jar"]] :=
  (c3_resolution_order ["L/g/a/1/a-1.jar"] "L" "V" (Library.mk "g:a:1" "" [])).2
    "g" "a" "1" [] (by decide) (by decide) (by decide)

/-! ## Fold structure of the library loop -/

/-- One loop step only appends to the accumulators. -/
theorem libraryStep_acc (goos : String) (fs : FS) (libDir versionDir : String)
    (acc : List String × List Emit) (lib : Library) :
    libraryStep goos fs libDir versionDir acc lib
      = (acc.1 ++ (libraryStep goos fs libDir versionDir ([], []) lib).1,
         acc.2 ++ (libraryStep goos fs libDir versionDir ([], []) lib).2) := by
  unfold libraryStep
  cases hs : shouldIncludeLibrary goos lib.rules with
  | false => simp [hs]
  | true =>
    rcases hres : resolveLibrary fs libDir versionDir lib with ⟨o, es⟩
    cases o <;> simp [hs, hres]

/-- The loop over a library list starting from any accumulator equals the
accumulator followed by the loop's own output. -/
theorem foldl_libraryStep (goos : String) (fs : FS) (libDir versionDir : String) :
    ∀ (libs : List Library) (acc : List String × List Emit),
      libs.foldl (libraryStep goos fs libDir versionDir) acc
        = (acc.1 ++ (libraryParts goos fs libDir versionDir libs).1,
           acc.2 ++ (libraryParts goos fs libDir versionDir libs).2)
  | [], acc => by simp [libraryParts]
  | lib :: rest, acc => by
    have ih := foldl_libraryStep goos fs libDir versionDir rest
    show List.foldl _ (libraryStep goos fs libDir versionDir acc lib) rest = _
    rw [ih]
    have h2 : libraryParts goos fs libDir versionDir (lib :: rest)
        = ((libraryStep goos fs libDir versionDir ([], []) lib).1
              ++ (libraryParts goos fs libDir versionDir rest).1,
           (libraryStep goos fs libDir versionDir ([], []) lib).2
              ++ (libraryParts goos fs libDir versionDir rest).2) := by
      show List.foldl _ (libraryStep goos fs libDir versionDir ([], []) lib) rest = _
      rw [ih]
    rw [h2, libraryStep_acc goos fs libDir versionDir acc lib]
    simp [List.append_assoc]

/-- The library loop distributes over concatenation of library lists. -/
theorem libraryParts_append (goos : String) (fs : FS) (libDir versionDir : String)
    (l1 l2 : List Library) :
    libraryParts goos fs libDir versionDir (l1 ++ l2)
      = ((libraryParts goos fs libDir versionDir l1).1
            ++ (libraryParts goos fs libDir versionDir l2).1,
         (libraryParts goos fs libDir versionDir l1).2
            ++ (libraryParts goos fs libDir versionDir l2).2) := by
  have h := foldl_libraryStep goos fs libDir versionDir l2
    (libraryParts goos fs libDir versionDir l1)
  calc libraryParts goos fs libDir versionDir (l1 ++ l2)
      = List.foldl (libraryStep goos fs libDir versionDir)
          (libraryParts goos fs libDir versionDir l1) l2 := by
        unfold libraryParts
        rw [List.foldl_append]
    _ = _ := h

/-! ## C5 -/

/-- C5 counterexample: a library with no artifact path and a malformed
coordinate (fewer than three `:`-parts) is platform-applicable and
unresolvable, yet the loop emits no diagnostic at all — it is silently
dropped. -/
theorem c5_counterexample :
    shouldIncludeLibrary "linux" (Library.mk "ab" "" []).rules = true ∧
    resolveLibrary [] "L" "V" (Library.mk "ab" "" []) = (none, []) ∧
    libraryStep "linux" [] "L" "V" ([], []) (Library.mk "ab" "" []) = ([], []) := by
  decide

/-- C5 amended: a diagnostic is guaranteed only for unresolved libraries
that either carry an artifact path (`library_missing`) or a well-formed
`group:artifact:version` coordinate (`library_not_found`); entries with an
empty name or a short coordinate are skipped silently.  Resolution itself
never aborts: the loop's output over concatenated library lists is the
concatenation of the outputs, so every later library is still processed. -/
theorem c5_unresolved_diagnostics (goos : String) (fs : FS) (libDir versionDir : String) :
    (∀ lib : Library, lib.artifactPath ≠ "" →
      (resolveLibrary fs libDir versionDir lib).1 = none →
      (resolveLibrary fs libDir versionDir lib).2
        = [.libraryMissing lib.name (pjoin [libDir, lib.artifactPath])]) ∧
    (∀ (lib : Library) (group artifact ver : String) (rest : List String),
      lib.artifactPath = "" → lib.name ≠ "" →
      splitOnChar ':' lib.name = group :: artifact :: ver :: rest →
      (resolveLibrary fs libDir versionDir lib).1 = none →
      (resolveLibrary fs libDir versionDir lib).2 = [.libraryNotFound lib.name]) ∧
    (∀ l1 l2 : List Library,
      (libraryParts goos fs libDir versionDir (l1 ++ l2)).1
        = (libraryParts goos fs libDir versionDir l1).1
            ++ (libraryParts goos fs libDir versionDir l2).1) := by
  refine ⟨?_, ?_, ?_⟩
  · intro lib h hnone
    simp only [resolveLibrary, if_pos h] at hnone ⊢
    cases hf : fileExists fs (pjoin [libDir, lib.artifactPath]) with
    | true => simp [hf] at hnone
    | false => simp [hf]
  · intro lib group artifact ver rest h hn hsplit hnone
    simp only [resolveLibrary, h, hsplit] at hnone ⊢
    simp only [ne_eq, not_true_eq_false, if_false, if_pos hn] at hnone ⊢
    cases hfe : firstExisting fs
        [pjoin [versionDir, artifact ++ "-" ++ ver ++ ".jar"],
         pjoin [libDir, group, artifact, ver, artifact ++ "-" ++ ver ++ ".jar"],
         pjoin [libDir, group, artifact, artifact ++ "-" ++ ver ++ ".jar"],
         pjoin [versionDir, lib.name ++ ".jar"]] with
    | some p => simp [hfe] at hnone
    | none => simp [hfe]
  · intro l1 l2
    rw [libraryParts_append]

/-- C5 witness: a set-but-missing artifact path does produce the
`library_missing` diagnostic. -/
theorem c5_unresolved_diagnostics_witness :
    (resolveLibrary [] "L" "V" (Library.mk "n" "p.jar" [])).2
      = [.libraryMissing "n" (pjoin ["L", "p.jar"])] :=
  (c5_unresolved_diagnostics "linux" [] "L" "V").1 (Library.mk "n" "p.jar" [])
    (by decide) (by decide)

/-! ## C4 -/

/-- C4 counterexample: child `X` inherits from `Y`, both libraries resolve,
the child jar `g/versions/X/X.jar` is absent and the parent jar
`g/versions/Y/Y.jar` exists — yet the resolved classpath contains *no*
main-archive entry at all (the parent jar is never substituted into the
classpath; `PrepareCMD`'s parent fallback only affects the existence
check), and launch preparation still succeeds with that truncated `-cp`. -/
theorem c4_counterexample :
    (loadVersionJSON c4Docs "g" 2 "X").map (buildClasspathList "linux" c4Files "g" "X")
      = some ["g/libraries/l2/l2.jar", "g/libraries/l1/l1.jar"] ∧
    (loadVersionJSON c4Docs "g" 2 "X").map (buildClasspathList "linux" c4Files "g" "X")
      ≠ some ["g/libraries/l2/l2.jar", "g/libraries/l1/l1.jar", "g/versions/Y/Y.jar"] ∧
    fileExists c4Files (pjoin [pjoin ["g", "versions", "X"], "X" ++ ".jar"]) = false ∧
    fileExists c4Files "g/versions/Y/Y.jar" = true ∧
    prepareCMD "linux" "/w" c4Docs 2 "u" "t" "i" "g" "X" "java" "1G" "1G" [] c4St
      = .ok ("java",
        ["-Xmx1G", "-Xms1G", "-Djava.library.path=/w/g/versions/X/natives",
         "-cp", "g/libraries/l2/l2.jar:g/libraries/l1/l1.jar", "M",
         "--username", "u", "--version", "X", "--gameDir", "g",
         "--assetsDir", "g/assets", "--assetIndex", "", "--uuid", "i",
         "--accessToken", "t", "--userType", "legacy"]) :=
  ⟨by decide, by decide, by decide, by decide, by rfl⟩

/-- C4 amended: the classpath's last entry is the profile's own main
archive exactly when that jar exists on disk; when it is absent nothing is
appended in its place (the one-level parent-jar fallback in `PrepareCMD`
guards only the aborting existence check and never enters the classpath).
In the end-to-end scenario with the child's jar present, the classpath is
`[L2path, L1path, mainArchivePath]` and the main class is the parent's. -/
theorem c4_main_archive (goos : String) (docs : String → Option VersionJSON)
    (fuel : Nat) (fs : FS) (g x y : String) (cx cy : VersionJSON) (l1 l2 : Library)
    (hcx : docs (pjoin [g, "versions", x, x ++ ".json"]) = some cx)
    (hinh : cx.inheritsFrom = y) (hy : y ≠ "")
    (hcy : docs (pjoin [g, "versions", y, y ++ ".json"]) = some cy)
    (hcyRoot : cy.inheritsFrom = "")
    (hlx : cx.libraries = [l1]) (hly : cy.libraries = [l2])
    (hr1 : l1.rules = []) (hr2 : l2.rules = [])
    (hp1 : l1.artifactPath ≠ "") (hp2 : l2.artifactPath ≠ "")
    (he1 : fileExists fs (pjoin [pjoin [g, "libraries"], l1.artifactPath]) = true)
    (he2 : fileExists fs (pjoin [pjoin [g, "libraries"], l2.artifactPath]) = true)
    (hjar : fileExists fs (pjoin [pjoin [g, "versions", x], x ++ ".jar"]) = true) :
    loadVersionJSON docs g (fuel + 2) x = some (mergeVersion cy cx) ∧
    (mergeVersion cy cx).mainClass
      = (if cx.mainClass = "" then cy.mainClass else cx.mainClass) ∧
    buildClasspathList goos fs g x (mergeVersion cy cx)
      = [pjoin [pjoin [g, "libraries"], l2.artifactPath],
         pjoin [pjoin [g, "libraries"], l1.artifactPath],
         pjoin [pjoin [g, "versions", x], x ++ ".jar"]] := by
  refine ⟨?_, rfl, ?_⟩
  · simp [loadVersionJSON, hcx, hinh, hy, hcy, hcyRoot]
  · have hlibs : (mergeVersion cy cx).libraries = [l2, l1] := by
      simp [mergeVersion, hlx, hly]
    unfold buildClasspathList buildClasspathParts
    rw [hlibs]
    simp [libraryParts, libraryStep, shouldIncludeLibrary, hr1, hr2,
      resolveLibrary, hp1, hp2, he1, he2, hjar]

/-- C4 witness for the amended claim: the same two-profile scenario with
the child jar present on disk. -/
theorem c4_main_archive_witness :
    loadVersionJSON c4Docs "g" 2 "X" = some (mergeVersion c4Y c4X) ∧
    (mergeVersion c4Y c4X).mainClass
      = (if c4X.mainClass = "" then c4Y.mainClass else c4X.mainClass) ∧
    buildClasspathList "linux" c4wFiles "g" "X" (mergeVersion c4Y c4X)
      = [pjoin [pjoin ["g", "libraries"], c4L2.artifactPath],
         pjoin [pjoin ["g", "libraries"], c4L1.artifactPath],
         pjoin [pjoin ["g", "versions", "X"], "X" ++ ".jar"]] :=
  c4_main_archive "linux" c4Docs 0 c4wFiles "g" "X" "Y" c4X c4Y c4L1 c4L2
    (by decide) (by decide) (by decide) (by decide) (by decide) (by decide)
    (by decide) (by decide) (by decide) (by decide) (by decide) (by decide)
    (by decide) (by decide)

/-! ## C6 -/

/-- C6: if the staging directory holds no native file before the scan and
still holds none after scanning every candidate archive, native extraction
fails with the `NoNativesExtracted` error, and `PrepareCMD` aborts with
that same error — so no argument-building step contributes to the result. -/
theorem c6_no_natives_aborts
    (goos cwd : String) (docs : String → Option VersionJSON) (fuel : Nat)
    (username accessToken uuid g v javaPath maxRam minRam : String)
    (extra : List String) (st : FSState) (vj : VersionJSON) (pattern : String)
    (hload : loadVersionJSON docs g fuel v = some vj)
    (hjar : fileExists st.files (pjoin [pjoin [g, "versions", v], v ++ ".jar"]) = true)
    (hpat : nativePatternFor goos = some pattern)
    (hpre : (dirEntries st.files (pjoin [pjoin [g, "versions", v], "natives"])).any
      (fun n => hasNativeSuffixName (lowerStr n)) = false)
    (hpost : ((dirEntries (scanAndExtract pattern (pjoin [g, "libraries"])
          (pjoin [pjoin [g, "versions", v], "natives"]) st).files
        (pjoin [pjoin [g, "versions", v], "natives"])).filter
        (fun n => hasNativeSuffixName (lowerStr n))).length = 0) :
    extractNativesFromLibraries goos (pjoin [g, "libraries"])
        (pjoin [pjoin [g, "versions", v], "natives"]) st = .error noNativesMsg ∧
    prepareCMD goos cwd docs fuel username accessToken uuid g v javaPath maxRam minRam
        extra st
      = .error noNativesMsg := by
  have hext : extractNativesFromLibraries goos (pjoin [g, "libraries"])
      (pjoin [pjoin [g, "versions", v], "natives"]) st = .error noNativesMsg := by
    simp [extractNativesFromLibraries, hpre, hpat, hpost]
  refine ⟨hext, ?_⟩
  simp [prepareCMD, hload, hjar, hext]

/-- C6 witness: one root profile, version jar present, no native jar
anywhere on disk. -/
theorem c6_no_natives_aborts_witness :
    extractNativesFromLibraries "linux" (pjoin ["g", "libraries"])
        (pjoin [pjoin ["g", "versions", "v"], "natives"]) c6St = .error noNativesMsg ∧
    prepareCMD "linux" "/w" c6Docs 1 "u" "t" "i" "g" "v" "java" "1G" "1G" [] c6St
      = .error noNativesMsg :=
  c6_no_natives_aborts "linux" "/w" c6Docs 1 "u" "t" "i" "g" "v" "java" "1G" "1G"
    [] c6St c6Vj "natives-linux" (by decide) (by decide) (by decide) (by decide)
    (by decide)

/-! ## C7 -/

/-- C7: native extraction is idempotent — if the staging directory already
holds a native-suffixed file, the call returns success immediately with the
filesystem state unchanged; consequently any successful extraction is a
fixed point (a second call returns the same state unchanged). -/
theorem c7_natives_idempotent (goos libDir nativesDir : String) :
    (∀ st : FSState,
      (dirEntries st.files nativesDir).any
        (fun n => hasNativeSuffixName (lowerStr n)) = true →
      extractNativesFromLibraries goos libDir nativesDir st = .ok st) ∧
    (∀ st st2 : FSState,
      extractNativesFromLibraries goos libDir nativesDir st = .ok st2 →
      extractNativesFromLibraries goos libDir nativesDir st2 = .ok st2) := by
  have hearly : ∀ st : FSState,
      (dirEntries st.files nativesDir).any
        (fun n => hasNativeSuffixName (lowerStr n)) = true →
      extractNativesFromLibraries goos libDir nativesDir st = .ok st := by
    intro st h
    simp [extractNativesFromLibraries, h]
  refine ⟨hearly, ?_⟩
  intro st st2 h
  by_cases h0 : (dirEntries st.files nativesDir).any
      (fun n => hasNativeSuffixName (lowerStr n)) = true
  · rw [hearly st h0] at h
    injection h with h2
    exact h2 ▸ hearly st h0
  · unfold extractNativesFromLibraries at h
    rw [if_neg h0] at h
    cases hpat : nativePatternFor goos with
    | none => rw [hpat] at h; simp at h
    | some pattern =>
      rw [hpat] at h
      by_cases hcnt : ((dirEntries (scanAndExtract pattern libDir nativesDir st).files
          nativesDir).filter (fun n => hasNativeSuffixName (lowerStr n))).length = 0
      · simp [hcnt] at h
      · simp only [if_neg hcnt, Except.ok.injEq] at h
        rw [h] at hcnt
        apply hearly
        have hne : (dirEntries st2.files nativesDir).filter
            (fun n => hasNativeSuffixName (lowerStr n)) ≠ [] := by
          intro hnil
          exact hcnt (by rw [hnil]; rfl)
        obtain ⟨a, ha⟩ := List.exists_mem_of_ne_nil _ hne
        have hmem := List.mem_filter.mp ha
        exact List.any_eq_true.mpr ⟨a, hmem.1, hmem.2⟩

/-- C7 witness: a staging directory that already holds `liblwjgl.so`. -/
theorem c7_natives_idempotent_witness :
    extractNativesFromLibraries "linux" "L" "N" c7St = .ok c7St :=
  (c7_natives_idempotent "linux" "L" "N").1 c7St (by decide)

/-! ## C8 -/

/-- C8: legacy argument handling substitutes each key's `$\x7bkey\x7d`
occurrences in turn by exact string replacement and then splits the result
on whitespace; in particular the template `--name $\x7bauth_player_name\x7d`
with player name `Steve` under the fixed `PrepareCMD` map yields exactly
`["--name", "Steve"]`, and repeated occurrences are all replaced. -/
theorem c8_legacy_arguments :
    (∀ (template k v : String) (rest : List (String × String)),
      parseMinecraftArguments template ((k, v) :: rest)
        = parseMinecraftArguments (goReplaceAll template ("$\x7b" ++ k ++ "\x7d") v) rest) ∧
    (∀ s : String, parseMinecraftArguments s [] = goFields s) ∧
    parseMinecraftArguments "--name $\x7bauth_player_name\x7d"
        (buildReplacements "Steve" "1.8.9" "game" "idx" "uid" "tok")
      = ["--name", "Steve"] ∧
    parseMinecraftArguments "$\x7ba\x7d $\x7ba\x7d" [("a", "x")] = ["x", "x"] :=
  ⟨fun _ _ _ _ => rfl, fun _ => rfl, by decide, by decide⟩

/-! ## C9 -/

/-- The probe loop only observes the snapshot through `fileExists`. -/
theorem firstExisting_congr {fs1 fs2 : FS}
    (h : ∀ p, fileExists fs1 p = fileExists fs2 p) :
    ∀ paths : List String, firstExisting fs1 paths = firstExisting fs2 paths
  | [] => rfl
  | p :: rest => by
    simp only [firstExisting, h p, firstExisting_congr h rest]

/-- Library resolution only observes the snapshot through `fileExists`. -/
theorem resolveLibrary_congr {fs1 fs2 : FS}
    (h : ∀ p, fileExists fs1 p = fileExists fs2 p)
    (libDir versionDir : String) (lib : Library) :
    resolveLibrary fs1 libDir versionDir lib
      = resolveLibrary fs2 libDir versionDir lib := by
  unfold resolveLibrary
  simp only [h, firstExisting_congr h]

/-- C9: classpath resolution is deterministic for a fixed filesystem
snapshot — any two snapshots giving identical `stat` answers on every path
produce the same ordered entry list and the same joined classpath string
(in particular two invocations on the same snapshot coincide). -/
theorem c9_classpath_deterministic (goos : String) (fs1 fs2 : FS)
    (gameDir version : String) (vj : VersionJSON)
    (h : ∀ p, fileExists fs1 p = fileExists fs2 p) :
    buildClasspathList goos fs1 gameDir version vj
      = buildClasspathList goos fs2 gameDir version vj ∧
    buildClasspath goos fs1 gameDir version vj
      = buildClasspath goos fs2 gameDir version vj := by
  have hstep : libraryStep goos fs1 (pjoin [gameDir, "libraries"])
      (pjoin [gameDir, "versions", version])
      = libraryStep goos fs2 (pjoin [gameDir, "libraries"])
        (pjoin [gameDir, "versions", version]) := by
    funext acc lib
    unfold libraryStep
    rw [resolveLibrary_congr h]
  have hlist : buildClasspathList goos fs1 gameDir version vj
      = buildClasspathList goos fs2 gameDir version vj := by
    simp only [buildClasspathList, buildClasspathParts, libraryParts, hstep, h]
  exact ⟨hlist, by unfold buildClasspath; rw [hlist]⟩

/-- C9 witness: two representations of the same snapshot (a duplicated
path) resolve identically. -/
theorem c9_classpath_deterministic_witness :
    buildClasspathList "linux" ["a", "a"] "g" "v" c9Vj
      = buildClasspathList "linux" ["a"] "g" "v" c9Vj ∧
    buildClasspath "linux" ["a", "a"] "g" "v" c9Vj
      = buildClasspath "linux" ["a"] "g" "v" c9Vj :=
  c9_classpath_deterministic "linux" ["a", "a"] ["a"] "g" "v" c9Vj
    (fun p => by cases hq : ("a" : String) == p <;> simp [fileExists, hq])

/-! ## C10 -/

/-- C10: when the resolved profile's main class is empty, launch
preparation still succeeds and the literal `net.minecraft.client.main.Main`
is placed as the sixth argument (right after the five JVM arguments). -/
theorem c10_default_main_class
    (goos cwd : String) (docs : String → Option VersionJSON) (fuel : Nat)
    (username accessToken uuid g v javaPath maxRam minRam : String)
    (extra : List String) (st st2 : FSState) (vj : VersionJSON)
    (hload : loadVersionJSON docs g fuel v = some vj)
    (hmc : vj.mainClass = "")
    (hjar : fileExists st.files (pjoin [pjoin [g, "versions", v], v ++ ".jar"]) = true)
    (hnat : extractNativesFromLibraries goos (pjoin [g, "libraries"])
      (pjoin [pjoin [g, "versions", v], "natives"]) st = .ok st2) :
    Except.map (fun out => out.2.get? 5)
        (prepareCMD goos cwd docs fuel username accessToken uuid g v javaPath maxRam
          minRam extra st)
      = .ok (some "net.minecraft.client.main.Main") := by
  simp [prepareCMD, hload, hjar, hnat, hmc, Except.map, List.get?]

/-- C10 witness: a concrete root profile with empty `mainClass`. -/
theorem c10_default_main_class_witness :
    Except.map (fun out => out.2.get? 5)
        (prepareCMD "linux" "/w" c10Docs 1 "u" "t" "i" "g" "v" "java" "1G" "1G" [] c10St)
      = .ok (some "net.minecraft.client.main.Main") :=
  c10_default_main_class "linux" "/w" c10Docs 1 "u" "t" "i" "g" "v" "java" "1G" "1G"
    [] c10St c10St c10Vj (by decide) (by decide) (by decide) (by rfl)

end Launcher
